import Mathlib

/-!
Verification of the change-detection and render-trigger engine of
k8s-node-external-ip-watcher (src/main.go).

The development shallowly embeds the Go source:
* `sha256hex` is the SHA-256 digest (crypto/sha256 + encoding/hex) over the
  UTF-8 bytes of a string, written over `Nat` with explicit `% 2^32`.
* `calculateHash` mirrors `Watcher.calculateHash`: sort the node records by
  name, sort the static IPs, feed name‖IP … then the static IPs into the
  digest, hex-encode.  Go's `sort.Slice`/`sort.Strings` are modelled by
  insertion sort by the same key; on key-duplicate-free input (the only input
  the table can produce, and the inputs of every concrete theorem below) any
  sort by that key agrees.
* the `map[string]string` table is an association list with the usual
  map operations (`mapInsert` replaces in place or appends, `mapErase`
  filters); `len` is the list length.
* effectful steps (os.Create, template execution, file sync, command
  execution) are oracles in a `RenderEnv` record of success flags, and the
  functions additionally report which side effects they attempted
  (`wroteFile`, `ranCommand`, `renderAttempted`).
* `renderAndExecute`, `handleNodeEvent` and `initialSync` follow the source's
  control flow line by line (src/main.go:276-471).
-/

set_option maxRecDepth 1000000

/-! ### SHA-256 over `Nat` bytes -/

/-- Truncated rotate-right of a 32-bit word held in a `Nat`. -/
def rotr32 (x n : Nat) : Nat := ((x >>> n) ||| (x <<< (32 - n))) % 4294967296

/-- UTF-8 encoding of a single code point, as Go's `[]byte(string)` produces. -/
def utf8EncodeCodePoint (n : Nat) : List Nat :=
  if n < 128 then [n]
  else if n < 2048 then [192 ||| (n >>> 6), 128 ||| (n &&& 63)]
  else if n < 65536 then
    [224 ||| (n >>> 12), 128 ||| ((n >>> 6) &&& 63), 128 ||| (n &&& 63)]
  else
    [240 ||| (n >>> 18), 128 ||| ((n >>> 12) &&& 63),
     128 ||| ((n >>> 6) &&& 63), 128 ||| (n &&& 63)]

/-- The UTF-8 bytes of a string. -/
def strBytes (s : String) : List Nat :=
  s.data.foldr (fun c acc => utf8EncodeCodePoint c.toNat ++ acc) []

/-- Big-endian byte expansion of a number into `n` bytes. -/
def bytesBE : Nat → Nat → List Nat
  | 0, _ => []
  | m + 1, x => bytesBE m (x >>> 8) ++ [x % 256]

/-- The SHA-256 round constants (FIPS 180-4). -/
def sha256K : List Nat :=
  [1116352408, 1899447441, 3049323471, 3921009573, 961987163, 1508970993,
   2453635748, 2870763221, 3624381080, 310598401, 607225278, 1426881987,
   1925078388, 2162078206, 2614888103, 3248222580, 3835390401, 4022224774,
   264347078, 604807628, 770255983, 1249150122, 1555081692, 1996064986,
   2554220882, 2821834349, 2952996808, 3210313671, 3336571891, 3584528711,
   113926993, 338241895, 666307205, 773529912, 1294757372, 1396182291,
   1695183700, 1986661051, 2177026350, 2456956037, 2730485921, 2820302411,
   3259730800, 3345764771, 3516065817, 3600352804, 4094571909, 275423344,
   430227734, 506948616, 659060556, 883997877, 958139571, 1322822218,
   1537002063, 1747873779, 1955562222, 2024104815, 2227730452, 2361852424,
   2428436474, 2756734187, 3204031479, 3329325298]

/-- The SHA-256 initial state (FIPS 180-4). -/
def sha256H0 : List Nat :=
  [1779033703, 3144134277, 1013904242, 2773480762, 1359893119, 2600822924,
   528734635, 1541459225]

/-- SHA-256 padding: a `0x80` byte, zeros to 56 mod 64, then the bit length
big-endian in 8 bytes. -/
def padMessage (msg : List Nat) : List Nat :=
  let len := msg.length
  let k := (120 - ((len + 1) % 64)) % 64
  msg ++ 128 :: List.replicate k 0 ++ bytesBE 8 (len * 8)

def toBlocksAux : Nat → List Nat → List (List Nat)
  | 0, _ => []
  | _, [] => []
  | fuel + 1, l => l.take 64 :: toBlocksAux fuel (l.drop 64)

/-- Split a (padded) byte list into 64-byte blocks. -/
def toBlocks (l : List Nat) : List (List Nat) := toBlocksAux l.length l

/-- Group bytes into big-endian 32-bit words. -/
def toWords : List Nat → List Nat
  | b0 :: b1 :: b2 :: b3 :: rest => (((b0 * 256 + b1) * 256 + b2) * 256 + b3) :: toWords rest
  | _ => []

/-- One step of the SHA-256 message-schedule extension. -/
def schedStep (ws : List Nat) : List Nat :=
  let n := ws.length
  let w15 := ws.getD (n - 15) 0
  let w2 := ws.getD (n - 2) 0
  let w16 := ws.getD (n - 16) 0
  let w7 := ws.getD (n - 7) 0
  let s0 := (rotr32 w15 7) ^^^ (rotr32 w15 18) ^^^ (w15 >>> 3)
  let s1 := (rotr32 w2 17) ^^^ (rotr32 w2 19) ^^^ (w2 >>> 10)
  ws ++ [(w16 + s0 + w7 + s1) % 4294967296]

def extendWs : List Nat → Nat → List Nat
  | ws, 0 => ws
  | ws, k + 1 => extendWs (schedStep ws) k

/-- One SHA-256 compression round on the state `[a,b,c,d,e,f,g,h]`. -/
def compressRound (st : List Nat) (kw : Nat × Nat) : List Nat :=
  let a := st.getD 0 0
  let b := st.getD 1 0
  let c := st.getD 2 0
  let d := st.getD 3 0
  let e := st.getD 4 0
  let f := st.getD 5 0
  let g := st.getD 6 0
  let h := st.getD 7 0
  let bigS1 := rotr32 e 6 ^^^ rotr32 e 11 ^^^ rotr32 e 25
  let ch := (e &&& f) ^^^ ((e ^^^ 4294967295) &&& g)
  let temp1 := (h + bigS1 + ch + kw.1 + kw.2) % 4294967296
  let bigS0 := rotr32 a 2 ^^^ rotr32 a 13 ^^^ rotr32 a 22
  let maj := (a &&& b) ^^^ (a &&& c) ^^^ (b &&& c)
  let temp2 := (bigS0 + maj) % 4294967296
  [(temp1 + temp2) % 4294967296, a, b, c, (d + temp1) % 4294967296, e, f, g]

/-- Process one 64-byte block into the running hash state. -/
def processBlock (h : List Nat) (block : List Nat) : List Nat :=
  let ws := extendWs (toWords block) 48
  let st := (sha256K.zip ws).foldl compressRound h
  (h.zip st).map (fun p => (p.1 + p.2) % 4294967296)

/-- The SHA-256 digest (32 bytes) of a byte list. -/
def sha256Bytes (msg : List Nat) : List Nat :=
  let hs := (toBlocks (padMessage msg)).foldl processBlock sha256H0
  hs.foldr (fun w acc => bytesBE 4 w ++ acc) []

def hexDigit (n : Nat) : Char := if n < 10 then Char.ofNat (48 + n) else Char.ofNat (87 + n)

/-- Lowercase hex encoding of a byte list, as Go's `hex.EncodeToString`. -/
def hexEncode (bs : List Nat) : String :=
  String.mk (bs.foldr (fun b acc => hexDigit (b / 16) :: hexDigit (b % 16) :: acc) [])

/-- `sha256hex s` is `hex.EncodeToString(sha256.Sum256([]byte(s)))`. -/
def sha256hex (s : String) : String := hexEncode (sha256Bytes (strBytes s))

/-! ### Data model (src/main.go:32-67) -/

/-- One entry of `node.Status.Addresses`: a typed address. -/
structure NodeAddress where
  addrType : String
  address : String
  deriving DecidableEq

/-- The part of a `corev1.Node` the watcher reads: name and status addresses. -/
structure K8sNode where
  Name : String
  Addresses : List NodeAddress
  deriving DecidableEq

/-- `NodeInfo` from src/main.go:53-56. -/
structure NodeInfo where
  Name : String
  ExternalIP : String
  deriving DecidableEq

/-- `NodeData` from src/main.go:45-50; the timestamp is a `Nat` stand-in for
`time.Time`. -/
structure NodeData where
  Nodes : List NodeInfo
  StaticIPs : List String
  AllIPs : List String
  Timestamp : Nat
  deriving DecidableEq

/-- The configuration fields the core reads (src/main.go:33-42). -/
structure Config where
  StaticIPs : List String
  MinNodeCount : Nat
  deriving DecidableEq

/-- The watcher's mutable state: the node→IP table and the last applied hash
(src/main.go:59-67; `nodeIPs` starts empty, `currentHash` starts `""`). -/
structure WatcherState where
  nodeIPs : List (String × String)
  currentHash : String
  deriving DecidableEq

/-- Outcome oracles for the effectful steps of one render cycle, plus the
wall-clock `time.Now()` value. -/
structure RenderEnv where
  createOk : Bool
  templateOk : Bool
  syncOk : Bool
  commandOk : Bool
  now : Nat
  deriving DecidableEq

/-! ### The address table as an association list -/

/-- Go `w.nodeIPs[name]`: the mapped value, or the zero value `""`. -/
def lookupIP (m : List (String × String)) (k : String) : String :=
  match m.find? (fun p => p.1 == k) with
  | some p => p.2
  | none => ""

/-- Go `_, exists := w.nodeIPs[name]`. -/
def containsKey (m : List (String × String)) (k : String) : Bool :=
  m.any (fun p => p.1 == k)

/-- Go `w.nodeIPs[name] = ip`: replace in place, or append a fresh binding. -/
def mapInsert (m : List (String × String)) (k v : String) : List (String × String) :=
  if containsKey m k then m.map (fun p => if p.1 == k then (k, v) else p)
  else m ++ [(k, v)]

/-- Go `delete(w.nodeIPs, name)`. -/
def mapErase (m : List (String × String)) (k : String) : List (String × String) :=
  m.filter (fun p => !(p.1 == k))

/-- The AddressTable invariant: at most one entry per node identifier, and
every entry maps to a non-empty address. -/
def tableInv (m : List (String × String)) : Prop :=
  (m.map Prod.fst).Nodup ∧ ∀ p ∈ m, p.2 ≠ ""

/-! ### Extracting the external IP (src/main.go:291-297 and 335-342) -/

/-- The `for … break` loop over `node.Status.Addresses`: the first entry of
type `NodeExternalIP` wins; `""` if there is none. -/
def extractNodeIP : List NodeAddress → String
  | [] => ""
  | a :: rest => if a.addrType == "ExternalIP" then a.address else extractNodeIP rest

/-! ### The fingerprint (src/main.go:446-471)

Go compares strings byte-wise lexicographically; on UTF-8 encodings that
coincides with code-point-wise lexicographic order, which `charsLt` computes
by structural recursion (so the kernel can evaluate it). -/

/-- Lexicographic strict order on character lists, by code point. -/
def charsLt : List Char → List Char → Bool
  | _, [] => false
  | [], _ :: _ => true
  | a :: as, b :: bs => if a < b then true else if b < a then false else charsLt as bs

/-- Go's `a < b` on strings. -/
def strLt (a b : String) : Bool := charsLt a.data b.data

/-- `a ≤ b` on strings, as the sorts use it: not `b < a`. -/
def strLeP (a b : String) : Prop := strLt b a = false

instance : DecidableRel strLeP := fun a b => inferInstanceAs (Decidable (strLt b a = false))

/-- The comparator of `sort.Slice(nodes, …)`: order node records by name
(src/main.go:452-454). -/
def nodeLE (a b : NodeInfo) : Prop := strLeP a.Name b.Name

instance : DecidableRel nodeLE := fun a b => inferInstanceAs (Decidable (strLeP a.Name b.Name))

/-- Strict name order on node records. -/
def nodeLT (a b : NodeInfo) : Prop := strLt a.Name b.Name = true

/-- The node sort of `calculateHash` (src/main.go:452-454). -/
def sortNodes (l : List NodeInfo) : List NodeInfo := List.insertionSort nodeLE l

/-- The static-IP sort of `calculateHash` (`sort.Strings`, src/main.go:464). -/
def sortStrings (l : List String) : List String := List.insertionSort strLeP l

/-- The exact byte stream `calculateHash` feeds to the digest: each sorted
node's name then IP, then each sorted static IP, concatenated with no
separators (src/main.go:456-468). -/
def hashInput (data : NodeData) : String :=
  String.join ((sortNodes data.Nodes).map (fun node => node.Name ++ node.ExternalIP)) ++
  String.join (sortStrings data.StaticIPs)

/-- `Watcher.calculateHash` (src/main.go:446-471). -/
def calculateHash (data : NodeData) : String := sha256hex (hashInput data)

/-! ### renderAndExecute (src/main.go:393-444) -/

/-- The `NodeData` snapshot `renderAndExecute` builds (src/main.go:395-414).
Go iterates the map in unspecified order; the model iterates in list order,
which the order-insensitive fingerprint cannot observe. -/
def buildNodeData (cfg : Config) (now : Nat) (s : WatcherState) : NodeData :=
  { Nodes := s.nodeIPs.map (fun p => { Name := p.1, ExternalIP := p.2 }),
    StaticIPs := cfg.StaticIPs,
    AllIPs := s.nodeIPs.map Prod.snd ++ cfg.StaticIPs,
    Timestamp := now }

/-- The outcome of one `renderAndExecute` call: the new state, whether the
call returned a nil error, and which side effects were attempted. -/
structure RenderResult where
  state : WatcherState
  ok : Bool
  wroteFile : Bool
  ranCommand : Bool
  deriving DecidableEq

/-- `Watcher.renderAndExecute` (src/main.go:393-444): hash-compare no-op,
create, template-execute, sync, `currentHash := dataHash`, then the external
command.  Note the hash is committed before the command runs. -/
def renderAndExecute (cfg : Config) (env : RenderEnv) (s : WatcherState) : RenderResult :=
  let dataHash := calculateHash (buildNodeData cfg env.now s)
  if dataHash = s.currentHash then
    { state := s, ok := true, wroteFile := false, ranCommand := false }
  else if env.createOk = false then
    { state := s, ok := false, wroteFile := false, ranCommand := false }
  else if env.templateOk = false then
    { state := s, ok := false, wroteFile := true, ranCommand := false }
  else if env.syncOk = false then
    { state := s, ok := false, wroteFile := true, ranCommand := false }
  else
    { state := { s with currentHash := dataHash }, ok := env.commandOk,
      wroteFile := true, ranCommand := true }

/-! ### handleNodeEvent (src/main.go:328-390) -/

/-- The outcome of one `handleNodeEvent` call. -/
structure HandleResult where
  state : WatcherState
  changed : Bool
  renderAttempted : Bool
  deriving DecidableEq

/-- The "Update internal state" block of `handleNodeEvent`
(src/main.go:351-369): the mutated table and the `changed` flag.  `oldIP` is
the map lookup's zero-value-on-missing read (src/main.go:333). -/
def applyNodeMutation (eventType nodeName newIP : String)
    (m : List (String × String)) : List (String × String) × Bool :=
  let oldIP := lookupIP m nodeName
  if eventType = "DELETE" then
    if containsKey m nodeName then (mapErase m nodeName, true)
    else (m, false)
  else if newIP ≠ "" then
    if oldIP ≠ newIP then (mapInsert m nodeName newIP, true)
    else (m, false)
  else (m, false)

/-- The body of `handleNodeEvent` after `newIP` has been extracted
(src/main.go:352-389): mutate the table, skip when nothing changed, skip when
the safety check fails, else render and execute. -/
def handleNodeEventCore (cfg : Config) (env : RenderEnv) (eventType : String)
    (nodeName : String) (newIP : String) (s : WatcherState) : HandleResult :=
  let step := applyNodeMutation eventType nodeName newIP s.nodeIPs
  let s1 : WatcherState := { s with nodeIPs := step.1 }
  if step.2 = false then
    { state := s1, changed := false, renderAttempted := false }
  else if s1.nodeIPs.length < cfg.MinNodeCount then
    { state := s1, changed := true, renderAttempted := false }
  else
    { state := (renderAndExecute cfg env s1).state, changed := true, renderAttempted := true }

/-- `Watcher.handleNodeEvent` (src/main.go:328-390). -/
def handleNodeEvent (cfg : Config) (env : RenderEnv) (eventType : String)
    (node : K8sNode) (s : WatcherState) : HandleResult :=
  handleNodeEventCore cfg env eventType node.Name (extractNodeIP node.Addresses) s

/-! ### initialSync (src/main.go:276-325) -/

/-- The bulk load of `initialSync` (src/main.go:285-305): insert each listed
node that has a non-empty external IP. -/
def loadNodeIPs (m : List (String × String)) (items : List K8sNode) : List (String × String) :=
  items.foldl
    (fun m node =>
      let externalIP := extractNodeIP node.Addresses
      if externalIP ≠ "" then mapInsert m node.Name externalIP else m)
    m

/-- The outcome of one `initialSync` call: the new state, whether a render was
attempted, and whether the call returned a nil error. -/
structure SyncResult where
  state : WatcherState
  renderAttempted : Bool
  ok : Bool
  deriving DecidableEq

/-- `Watcher.initialSync` (src/main.go:276-325): bulk-load, warn-and-skip
below the minimum, render when the table is non-empty; every path returns a
nil error (a render failure is logged and swallowed, src/main.go:317-322). -/
def initialSync (cfg : Config) (env : RenderEnv) (items : List K8sNode)
    (s : WatcherState) : SyncResult :=
  let s1 : WatcherState := { s with nodeIPs := loadNodeIPs s.nodeIPs items }
  if s1.nodeIPs.length < cfg.MinNodeCount then
    { state := s1, renderAttempted := false, ok := true }
  else if 0 < s1.nodeIPs.length then
    { state := (renderAndExecute cfg env s1).state, renderAttempted := true, ok := true }
  else
    { state := s1, renderAttempted := false, ok := true }

/-! ### Concrete fixtures used by witnesses and counterexamples -/

/-- A configuration with no static IPs and the default minimum of 1. -/
def cfg1 : Config := { StaticIPs := [], MinNodeCount := 1 }

/-- A state holding one node, with the initial (never-rendered) hash. -/
def st1 : WatcherState := { nodeIPs := [("node1", "1.2.3.4")], currentHash := "" }

/-- An environment in which every effect succeeds. -/
def envAllOk : RenderEnv :=
  { createOk := true, templateOk := true, syncOk := true, commandOk := true, now := 0 }

/-- An environment in which only the external command fails. -/
def envCmdFail : RenderEnv :=
  { createOk := true, templateOk := true, syncOk := true, commandOk := false, now := 0 }

/-- An environment in which the output-file create fails. -/
def envCreateFail : RenderEnv :=
  { createOk := false, templateOk := true, syncOk := true, commandOk := true, now := 7 }

/-- A node notification carrying no addresses at all. -/
def nodeNoAddr : K8sNode := { Name := "node1", Addresses := [] }

/-- A configuration with minimum node count 0 (the spec allows any
non-negative minimum). -/
def cfgMin0 : Config := { StaticIPs := [], MinNodeCount := 0 }

/-- The empty starting state. -/
def stEmpty : WatcherState := { nodeIPs := [], currentHash := "" }

/-- A status list with a hostname entry before the external entry. -/
def addrList1 : List NodeAddress :=
  [{ addrType := "Hostname", address := "h" }, { addrType := "ExternalIP", address := "1.2.3.4" }]

/-- A second external entry, to be appended after `addrList1`. -/
def addrList2 : List NodeAddress := [{ addrType := "ExternalIP", address := "9.9.9.9" }]

/-! ### Order lemmas for the comparators -/

theorem charsLt_iff_lex (a b : List Char) : charsLt a b = true ↔ List.Lex (· < ·) a b := by
  induction a generalizing b with
  | nil =>
    cases b with
    | nil => simp only [charsLt, Bool.false_eq_true, false_iff]; exact List.Lex.not_nil_right _ _
    | cons y ys => simp only [charsLt, true_iff]; exact List.Lex.nil
  | cons x xs ih =>
    cases b with
    | nil => simp only [charsLt, Bool.false_eq_true, false_iff]; exact List.Lex.not_nil_right _ _
    | cons y ys =>
      simp only [charsLt]
      rcases lt_trichotomy x y with h | h | h
      · rw [if_pos h]; exact iff_of_true rfl (List.Lex.rel h)
      · subst h
        rw [if_neg (lt_irrefl x), if_neg (lt_irrefl x), ih ys]
        exact List.Lex.cons_iff.symm
      · rw [if_neg (asymm h), if_pos h]
        refine iff_of_false (by simp) (fun hlex => ?_)
        cases hlex with
        | rel h' => exact absurd h' (asymm h)
        | cons h' => exact absurd h (lt_irrefl x)

theorem strLt_asymm {a b : String} (h : strLt a b = true) : strLt b a = false := by
  unfold strLt at h ⊢
  rw [charsLt_iff_lex] at h
  by_contra hb
  rw [Bool.not_eq_false, charsLt_iff_lex] at hb
  exact asymm h hb

theorem strLt_trans {a b c : String} (h1 : strLt a b = true) (h2 : strLt b c = true) :
    strLt a c = true := by
  unfold strLt at h1 h2 ⊢
  rw [charsLt_iff_lex] at h1 h2 ⊢
  exact IsTrans.trans _ _ _ h1 h2

theorem strLt_eq_of_not {a b : String} (h1 : strLt a b = false) (h2 : strLt b a = false) :
    a = b := by
  cases a with
  | mk da =>
    cases b with
    | mk db =>
      unfold strLt at h1 h2
      rcases (trichotomous da db :
          List.Lex (· < ·) da db ∨ da = db ∨ List.Lex (· < ·) db da) with h | h | h
      · rw [← charsLt_iff_lex] at h; simp [h] at h1
      · rw [h]
      · rw [← charsLt_iff_lex] at h; simp [h] at h2

instance : IsTotal String strLeP :=
  ⟨fun a b => by
    unfold strLeP
    by_cases h : strLt b a = true
    · right; exact strLt_asymm h
    · left; simpa using h⟩

instance : IsTrans String strLeP :=
  ⟨fun a b c h1 h2 => by
    unfold strLeP at h1 h2 ⊢
    by_contra hc
    rw [Bool.not_eq_false] at hc
    cases hab : strLt a b with
    | false => rw [strLt_eq_of_not hab h1] at hc; simp [hc] at h2
    | true =>
      have := strLt_trans hc hab
      simp [this] at h2⟩

instance : IsAntisymm String strLeP := ⟨fun _ _ h1 h2 => strLt_eq_of_not h2 h1⟩

instance : IsTotal NodeInfo nodeLE := ⟨fun a b => total_of strLeP a.Name b.Name⟩

instance : IsTrans NodeInfo nodeLE :=
  ⟨fun a b c h1 h2 => IsTrans.trans (r := strLeP) a.Name b.Name c.Name h1 h2⟩

theorem nodeLT_of_le_of_ne {a b : NodeInfo} (h1 : nodeLE a b) (h2 : a.Name ≠ b.Name) :
    nodeLT a b := by
  unfold nodeLE strLeP at h1
  unfold nodeLT
  cases hlt : strLt a.Name b.Name with
  | false => exact absurd (strLt_eq_of_not hlt h1) h2
  | true => rfl

/-! ### Sorting is permutation-insensitive -/

theorem sortStrings_eq_of_perm {l1 l2 : List String} (h : List.Perm l1 l2) :
    sortStrings l1 = sortStrings l2 :=
  List.eq_of_perm_of_sorted
    (((List.perm_insertionSort strLeP l1).trans h).trans (List.perm_insertionSort strLeP l2).symm)
    (List.sorted_insertionSort strLeP l1) (List.sorted_insertionSort strLeP l2)

theorem sortNodes_pairwise_lt {l : List NodeInfo} (h : (l.map NodeInfo.Name).Nodup) :
    (sortNodes l).Pairwise nodeLT := by
  have hsorted : List.Sorted nodeLE (sortNodes l) := List.sorted_insertionSort nodeLE l
  have hperm : List.Perm (sortNodes l) l := List.perm_insertionSort nodeLE l
  have hnd : ((sortNodes l).map NodeInfo.Name).Nodup :=
    ((hperm.map NodeInfo.Name).nodup_iff).mpr h
  have hne : (sortNodes l).Pairwise (fun a b => a.Name ≠ b.Name) := List.pairwise_map.mp hnd
  exact (hsorted.and hne).imp fun hab => nodeLT_of_le_of_ne hab.1 hab.2

theorem sortNodes_eq_of_perm {l1 l2 : List NodeInfo} (h : List.Perm l1 l2)
    (hnd : (l1.map NodeInfo.Name).Nodup) : sortNodes l1 = sortNodes l2 := by
  have hnd2 : (l2.map NodeInfo.Name).Nodup := ((h.map NodeInfo.Name).nodup_iff).mp hnd
  haveI : IsAntisymm NodeInfo nodeLT :=
    ⟨fun a b h1 h2 => by
      unfold nodeLT at h1 h2
      rw [strLt_asymm h1] at h2
      exact absurd h2 (by simp)⟩
  exact List.eq_of_perm_of_sorted (r := nodeLT)
    (((List.perm_insertionSort nodeLE l1).trans h).trans (List.perm_insertionSort nodeLE l2).symm)
    (sortNodes_pairwise_lt hnd) (sortNodes_pairwise_lt hnd2)

/-! ### Basic facts about the render cycle and the table -/

theorem calculateHash_congr {cfg : Config} {n1 n2 : Nat} {s1 s2 : WatcherState}
    (h : s1.nodeIPs = s2.nodeIPs) :
    calculateHash (buildNodeData cfg n1 s1) = calculateHash (buildNodeData cfg n2 s2) := by
  simp only [calculateHash, hashInput, buildNodeData, h]

theorem renderAndExecute_nodeIPs (cfg : Config) (env : RenderEnv) (s : WatcherState) :
    (renderAndExecute cfg env s).state.nodeIPs = s.nodeIPs := by
  simp only [renderAndExecute]
  split_ifs <;> rfl

theorem containsKey_false_forall {m : List (String × String)} {k : String}
    (h : containsKey m k = false) : ∀ p ∈ m, p.1 ≠ k := by
  intro p hp
  unfold containsKey at h
  rw [List.any_eq_false] at h
  simpa using h p hp

theorem tableInv_mapInsert {m : List (String × String)} {k v : String}
    (h : tableInv m) (hv : v ≠ "") : tableInv (mapInsert m k v) := by
  unfold mapInsert
  split_ifs with hc
  · refine ⟨?_, ?_⟩
    · have hkeys : (m.map (fun p => if p.1 == k then (k, v) else p)).map Prod.fst
          = m.map Prod.fst := by
        rw [List.map_map]
        refine List.map_congr_left fun p _ => ?_
        by_cases hpk : p.1 = k
        · simp [Function.comp, hpk]
        · simp [Function.comp, hpk]
      rw [hkeys]; exact h.1
    · intro p hp
      rcases List.mem_map.mp hp with ⟨q, hq, rfl⟩
      by_cases hqk : q.1 = k
      · simpa [hqk] using hv
      · simpa [hqk] using h.2 q hq
  · have hcf : containsKey m k = false := by simpa using hc
    refine ⟨?_, ?_⟩
    · rw [List.map_append]
      refine h.1.append (by simp) ?_
      intro x hx hx2
      simp only [List.map_cons, List.map_nil, List.mem_singleton] at hx2
      subst hx2
      rcases List.mem_map.mp hx with ⟨q, hq, hqx⟩
      exact containsKey_false_forall hcf q hq hqx
    · intro p hp
      rcases List.mem_append.mp hp with hp | hp
      · exact h.2 p hp
      · simp only [List.mem_singleton] at hp; subst hp; exact hv

theorem tableInv_mapErase {m : List (String × String)} {k : String} (h : tableInv m) :
    tableInv (mapErase m k) := by
  refine ⟨?_, fun p hp => h.2 p (List.mem_of_mem_filter hp)⟩
  exact h.1.sublist ((List.filter_sublist m).map Prod.fst)

theorem tableInv_applyNodeMutation {m : List (String × String)} (et n ip : String)
    (h : tableInv m) : tableInv (applyNodeMutation et n ip m).1 := by
  simp only [applyNodeMutation]
  split_ifs with h1 h2 h3 h4
  · exact tableInv_mapErase h
  · exact h
  · exact tableInv_mapInsert h h3
  · exact h
  · exact h

theorem tableInv_loadNodeIPs {m : List (String × String)} (items : List K8sNode)
    (h : tableInv m) : tableInv (loadNodeIPs m items) := by
  induction items generalizing m with
  | nil => exact h
  | cons nd rest ih =>
    show tableInv (loadNodeIPs
      (if extractNodeIP nd.Addresses ≠ "" then mapInsert m nd.Name (extractNodeIP nd.Addresses)
       else m) rest)
    split_ifs with hip
    · exact ih (tableInv_mapInsert h hip)
    · exact ih h

theorem handleNodeEventCore_state_nodeIPs (cfg : Config) (env : RenderEnv)
    (et n ip : String) (s : WatcherState) :
    (handleNodeEventCore cfg env et n ip s).state.nodeIPs
      = (applyNodeMutation et n ip s.nodeIPs).1 := by
  simp only [handleNodeEventCore]
  split_ifs <;> simp [renderAndExecute_nodeIPs]

theorem initialSync_state_nodeIPs (cfg : Config) (env : RenderEnv) (items : List K8sNode)
    (s : WatcherState) :
    (initialSync cfg env items s).state.nodeIPs = loadNodeIPs s.nodeIPs items := by
  simp only [initialSync]
  split_ifs <;> simp [renderAndExecute_nodeIPs]

/-- FIPS 180-4 test vector: the model's SHA-256 agrees on `"abc"`. -/
theorem sha256hex_abc_vector : sha256hex "abc" =
    "ba7816bf8f01cfea414140de5dae2223b00361a396177a9cb410ff61f20015ad" := by decide

/-- FIPS 180-4 test vector: the model's SHA-256 agrees on the empty string. -/
theorem sha256hex_empty_vector : sha256hex "" =
    "e3b0c44298fc1c149afbf4c8996fb92427ae41e4649b934ca495991b7852b855" := by decide

theorem sortStrings_example : sortStrings ["b", "a", "c"] = ["a", "b", "c"] := by decide

theorem sortNodes_example : sortNodes [⟨"node2", "5.6.7.8"⟩, ⟨"node1", "1.2.3.4"⟩] =
    [⟨"node1", "1.2.3.4"⟩, ⟨"node2", "5.6.7.8"⟩] := by decide

theorem hashInput_example : hashInput ⟨[⟨"a", "bc"⟩], [], [], 0⟩ = "abc" := by decide

theorem extractNodeIP_example :
    extractNodeIP [⟨"Hostname", "h"⟩, ⟨"ExternalIP", "1.2.3.4"⟩, ⟨"ExternalIP", "9.9.9.9"⟩] =
    "1.2.3.4" := by decide

theorem renderAndExecute_example : (renderAndExecute cfg1 envCmdFail st1).ok = false := by
  decide

theorem handleNodeEvent_example :
    (handleNodeEvent cfg1 envAllOk "UPDATE" nodeNoAddr st1).changed = false := by decide

/-! ### Snapshots used by the C3/C4 hash theorems -/

/-- A snapshot holding the single node `a → bc`. -/
def dStream1 : NodeData :=
  { Nodes := [{ Name := "a", ExternalIP := "bc" }], StaticIPs := [], AllIPs := [], Timestamp := 0 }

/-- A snapshot holding the single node `ab → c`: a different node set whose
separator-free digest input stream is also the bytes of `"abc"`. -/
def dStream2 : NodeData :=
  { Nodes := [{ Name := "ab", ExternalIP := "c" }], StaticIPs := [], AllIPs := [], Timestamp := 0 }

/-- Two same-name nodes in one order … -/
def dDup1 : NodeData :=
  { Nodes := [{ Name := "n", ExternalIP := "a" }, { Name := "n", ExternalIP := "b" }],
    StaticIPs := [], AllIPs := [], Timestamp := 0 }

/-- … and the same two nodes permuted. -/
def dDup2 : NodeData :=
  { Nodes := [{ Name := "n", ExternalIP := "b" }, { Name := "n", ExternalIP := "a" }],
    StaticIPs := [], AllIPs := [], Timestamp := 0 }

/-- The spec's §8 scenario, one insertion order and timestamp … -/
def dOrder1 : NodeData :=
  { Nodes := [{ Name := "node1", ExternalIP := "1.2.3.4" }, { Name := "node2", ExternalIP := "5.6.7.8" }],
    StaticIPs := ["10.0.0.1"], AllIPs := [], Timestamp := 5 }

/-- … and the other insertion order with another timestamp. -/
def dOrder2 : NodeData :=
  { Nodes := [{ Name := "node2", ExternalIP := "5.6.7.8" }, { Name := "node1", ExternalIP := "1.2.3.4" }],
    StaticIPs := ["10.0.0.1"], AllIPs := [], Timestamp := 99 }

/-- Claim C3 (code bug): `calculateHash` writes each name and address into the
digest with no separator or length framing, so the distinct node sets
`{(a, bc)}` and `{(ab, c)}` (equal static sets) feed the byte-identical stream
`"abc"` to SHA-256 and collide deterministically — not with negligible
probability, as the claim demands. -/
theorem calculateHash_deterministic_collision :
    calculateHash dStream1 = calculateHash dStream2 ∧
    ¬ List.Perm dStream1.Nodes dStream2.Nodes ∧
    dStream1.StaticIPs = dStream2.StaticIPs := by
  refine ⟨?_, by decide, rfl⟩
  have h : hashInput dStream1 = hashInput dStream2 := by decide
  exact congrArg sha256hex h

/-- Claim C4 (counterexample): for node lists with a repeated identifier the
fingerprint is not permutation-invariant — the name-keyed sort leaves the two
`n`-records in their incoming order, so the two orders of
`{(n, a), (n, b)}` hash differently. -/
theorem calculateHash_perm_counterexample :
    List.Perm dDup1.Nodes dDup2.Nodes ∧ dDup1.StaticIPs = dDup2.StaticIPs ∧
    calculateHash dDup1 ≠ calculateHash dDup2 :=
  ⟨by decide, rfl, by decide⟩

/-- Claim C4 (amended): for node-pair lists with pairwise-distinct identifiers
(which every table snapshot has) and arbitrary static-address lists, the
fingerprint is invariant under permutation of the node pairs, permutation of
the static addresses, and the generation timestamp. -/
theorem calculateHash_perm_invariant (d1 d2 : NodeData)
    (hn : List.Perm d1.Nodes d2.Nodes) (hs : List.Perm d1.StaticIPs d2.StaticIPs)
    (hnd : (d1.Nodes.map NodeInfo.Name).Nodup) :
    calculateHash d1 = calculateHash d2 := by
  unfold calculateHash hashInput
  rw [sortNodes_eq_of_perm hn hnd, sortStrings_eq_of_perm hs]

/-- Claim C4 (witness): the spec's own scenario — `node1 → 1.2.3.4`,
`node2 → 5.6.7.8`, static `10.0.0.1` — fingerprints identically in either
insertion order and under different timestamps. -/
theorem calculateHash_perm_invariant_witness :
    List.Perm dOrder1.Nodes dOrder2.Nodes ∧ List.Perm dOrder1.StaticIPs dOrder2.StaticIPs ∧
    (dOrder1.Nodes.map NodeInfo.Name).Nodup ∧ dOrder1.Timestamp ≠ dOrder2.Timestamp ∧
    calculateHash dOrder1 = calculateHash dOrder2 :=
  ⟨by decide, by decide, by decide, by decide,
    calculateHash_perm_invariant dOrder1 dOrder2 (by decide) (by decide) (by decide)⟩

/-- Claim C2 (counterexample): the table holds `node1 → 1.2.3.4`; an UPDATE
for `node1` whose address list yields no external address leaves the entry in
place (nothing is removed) and reports no change — the code's
`else if newIP != ""` ladder simply does nothing for an empty address. -/
theorem handleNodeEvent_empty_update_cex :
    containsKey st1.nodeIPs "node1" = true ∧
    (handleNodeEvent cfg1 envAllOk "UPDATE" nodeNoAddr st1).state.nodeIPs = st1.nodeIPs ∧
    (handleNodeEvent cfg1 envAllOk "UPDATE" nodeNoAddr st1).changed = false := by
  refine ⟨by decide, by decide, by decide⟩

/-- Claim C2 (amended): for every ADDED or UPDATED notification whose external
address is empty, `handleNodeEvent` leaves the whole state unchanged — an
existing entry is kept, not removed — and reports no change. -/
theorem handleNodeEvent_empty_address_no_change (cfg : Config) (env : RenderEnv)
    (et : String) (node : K8sNode) (s : WatcherState)
    (het : et ≠ "DELETE") (hip : extractNodeIP node.Addresses = "") :
    (handleNodeEvent cfg env et node s).state = s ∧
    (handleNodeEvent cfg env et node s).changed = false := by
  simp [handleNodeEvent, handleNodeEventCore, applyNodeMutation, het, hip]

/-- Claim C2 (witness): the amended statement applied to the concrete UPDATE
of `node1` with no addresses against the one-node table. -/
theorem handleNodeEvent_empty_address_no_change_witness :
    (handleNodeEvent cfg1 envAllOk "UPDATE" nodeNoAddr st1).state = st1 ∧
    (handleNodeEvent cfg1 envAllOk "UPDATE" nodeNoAddr st1).changed = false :=
  handleNodeEvent_empty_address_no_change cfg1 envAllOk "UPDATE" nodeNoAddr st1
    (by decide) (by decide)

/-- Claim C1 (counterexample): from the one-node state with the never-rendered
hash `""`, a cycle whose write succeeds but whose external command fails
returns failure yet leaves `currentHash` changed — the code commits the hash
(src/main.go:440) before running the command (src/main.go:443). -/
theorem renderAndExecute_cmd_failure_cex :
    (renderAndExecute cfg1 envCmdFail st1).ok = false ∧
    (renderAndExecute cfg1 envCmdFail st1).state.currentHash ≠ st1.currentHash := by
  exact ⟨by decide, by decide⟩

/-- Claim C1 (amended): whenever the create, template and sync steps succeed
and the external command fails, `renderAndExecute` reports the failure but has
already advanced `currentHash` to the new fingerprint, so a retriggered cycle
over the same data is a no-op rather than a retry. -/
theorem renderAndExecute_cmd_failure_advances_hash (cfg : Config) (env : RenderEnv)
    (s : WatcherState) (hc : env.createOk = true) (ht : env.templateOk = true)
    (hy : env.syncOk = true) (hcmd : env.commandOk = false)
    (hne : calculateHash (buildNodeData cfg env.now s) ≠ s.currentHash) :
    (renderAndExecute cfg env s).ok = false ∧
    (renderAndExecute cfg env s).state.currentHash
      = calculateHash (buildNodeData cfg env.now s) := by
  simp [renderAndExecute, hne, hc, ht, hy, hcmd]

/-- Claim C1 (witness): the amended statement at the concrete one-node state
and command-failing environment. -/
theorem renderAndExecute_cmd_failure_advances_hash_witness :
    (renderAndExecute cfg1 envCmdFail st1).ok = false ∧
    (renderAndExecute cfg1 envCmdFail st1).state.currentHash
      = calculateHash (buildNodeData cfg1 envCmdFail.now st1) :=
  renderAndExecute_cmd_failure_advances_hash cfg1 envCmdFail st1 rfl rfl rfl rfl (by decide)

/-- Claim C7: when the snapshot's fingerprint differs from the last applied
one and the create, the template execution or the file sync fails, the cycle
reports failure and the watcher state — table and `currentHash` alike — is
exactly what it was, so the next triggering event re-attempts from scratch. -/
theorem renderAndExecute_failure_no_commit (cfg : Config) (env : RenderEnv)
    (s : WatcherState)
    (hne : calculateHash (buildNodeData cfg env.now s) ≠ s.currentHash)
    (hfail : env.createOk = false ∨ env.templateOk = false ∨ env.syncOk = false) :
    (renderAndExecute cfg env s).ok = false ∧ (renderAndExecute cfg env s).state = s := by
  simp only [renderAndExecute]
  rw [if_neg hne]
  split_ifs with h1 h2 h3
  · exact ⟨rfl, rfl⟩
  · exact ⟨rfl, rfl⟩
  · exact ⟨rfl, rfl⟩
  · rcases hfail with h | h | h
    · exact absurd h h1
    · exact absurd h h2
    · exact absurd h h3

/-- Claim C7 (witness): the theorem at the concrete one-node state with a
failing create step. -/
theorem renderAndExecute_failure_no_commit_witness :
    (renderAndExecute cfg1 envCreateFail st1).ok = false ∧
    (renderAndExecute cfg1 envCreateFail st1).state = st1 :=
  renderAndExecute_failure_no_commit cfg1 envCreateFail st1 (by decide) (Or.inl rfl)

/-- Claim C5: the render cycle is idempotent — if one `renderAndExecute` call
returns success, a second call from the resulting state (under any
environment, in particular any later `time.Now()`) writes nothing, runs no
command, and returns success with the state unchanged, because the fresh
fingerprint equals the committed one. -/
theorem renderAndExecute_idempotent (cfg : Config) (env env2 : RenderEnv) (s : WatcherState)
    (h : (renderAndExecute cfg env s).ok = true) :
    renderAndExecute cfg env2 ((renderAndExecute cfg env s).state)
      = { state := (renderAndExecute cfg env s).state, ok := true,
          wroteFile := false, ranCommand := false } := by
  by_cases h0 : calculateHash (buildNodeData cfg env.now s) = s.currentHash
  · have hr : renderAndExecute cfg env s =
        { state := s, ok := true, wroteFile := false, ranCommand := false } := by
      simp only [renderAndExecute]
      rw [if_pos h0]
    rw [hr]
    have h0' : calculateHash (buildNodeData cfg env2.now s) = s.currentHash :=
      (calculateHash_congr rfl).trans h0
    simp only [renderAndExecute]
    rw [if_pos h0']
  · by_cases hcr : env.createOk = false
    · have : (renderAndExecute cfg env s).ok = false := by
        simp only [renderAndExecute]
        rw [if_neg h0, if_pos hcr]
      simp [this] at h
    · by_cases htm : env.templateOk = false
      · have : (renderAndExecute cfg env s).ok = false := by
          simp only [renderAndExecute]
          rw [if_neg h0, if_neg hcr, if_pos htm]
        simp [this] at h
      · by_cases hsn : env.syncOk = false
        · have : (renderAndExecute cfg env s).ok = false := by
            simp only [renderAndExecute]
            rw [if_neg h0, if_neg hcr, if_neg htm, if_pos hsn]
          simp [this] at h
        · have hr : renderAndExecute cfg env s =
              { state := { s with currentHash := calculateHash (buildNodeData cfg env.now s) },
                ok := env.commandOk, wroteFile := true, ranCommand := true } := by
            simp only [renderAndExecute]
            rw [if_neg h0, if_neg hcr, if_neg htm, if_neg hsn]
          rw [hr]
          have h2 : calculateHash (buildNodeData cfg env2.now
                { s with currentHash := calculateHash (buildNodeData cfg env.now s) })
              = calculateHash (buildNodeData cfg env.now s) := calculateHash_congr rfl
          simp only [renderAndExecute]
          rw [if_pos h2]

/-- Claim C5 (witness): a successful cycle from the one-node state followed by
a second call (even one whose command oracle would fail) is a no-op. -/
theorem renderAndExecute_idempotent_witness :
    (renderAndExecute cfg1 envAllOk st1).ok = true ∧
    renderAndExecute cfg1 envCmdFail ((renderAndExecute cfg1 envAllOk st1).state)
      = { state := (renderAndExecute cfg1 envAllOk st1).state, ok := true,
          wroteFile := false, ranCommand := false } :=
  ⟨by decide, renderAndExecute_idempotent cfg1 envAllOk envCmdFail st1 (by decide)⟩

/-- Claim C6: whenever an event actually changed the table, the safety check
`len(nodeIPs) < MinNodeCount` (src/main.go:378) decides the render — at or
above the minimum a render is attempted, below it the render is skipped and
`currentHash` is left exactly as it was. -/
theorem handleNodeEventCore_eq_noChange (cfg : Config) (env : RenderEnv)
    (et n ip : String) (s : WatcherState)
    (h1 : (applyNodeMutation et n ip s.nodeIPs).2 = false) :
    handleNodeEventCore cfg env et n ip s
      = { state := { s with nodeIPs := (applyNodeMutation et n ip s.nodeIPs).1 },
          changed := false, renderAttempted := false } := by
  simp only [handleNodeEventCore]
  rw [if_pos h1]

theorem handleNodeEventCore_eq_skip (cfg : Config) (env : RenderEnv)
    (et n ip : String) (s : WatcherState)
    (h1 : (applyNodeMutation et n ip s.nodeIPs).2 = true)
    (h2 : (applyNodeMutation et n ip s.nodeIPs).1.length < cfg.MinNodeCount) :
    handleNodeEventCore cfg env et n ip s
      = { state := { s with nodeIPs := (applyNodeMutation et n ip s.nodeIPs).1 },
          changed := true, renderAttempted := false } := by
  simp only [handleNodeEventCore]
  rw [if_neg (by simp [h1]), if_pos h2]

theorem handleNodeEventCore_eq_render (cfg : Config) (env : RenderEnv)
    (et n ip : String) (s : WatcherState)
    (h1 : (applyNodeMutation et n ip s.nodeIPs).2 = true)
    (h2 : ¬ (applyNodeMutation et n ip s.nodeIPs).1.length < cfg.MinNodeCount) :
    handleNodeEventCore cfg env et n ip s
      = { state := (renderAndExecute cfg env
            { s with nodeIPs := (applyNodeMutation et n ip s.nodeIPs).1 }).state,
          changed := true, renderAttempted := true } := by
  simp only [handleNodeEventCore]
  rw [if_neg (by simp [h1]), if_neg h2]

theorem handleNodeEvent_safety_gate (cfg : Config) (env : RenderEnv) (et : String)
    (node : K8sNode) (s : WatcherState)
    (hch : (handleNodeEvent cfg env et node s).changed = true) :
    (cfg.MinNodeCount ≤ (handleNodeEvent cfg env et node s).state.nodeIPs.length →
      (handleNodeEvent cfg env et node s).renderAttempted = true) ∧
    ((handleNodeEvent cfg env et node s).state.nodeIPs.length < cfg.MinNodeCount →
      (handleNodeEvent cfg env et node s).renderAttempted = false ∧
      (handleNodeEvent cfg env et node s).state.currentHash = s.currentHash) := by
  have hA : handleNodeEvent cfg env et node s
      = handleNodeEventCore cfg env et node.Name (extractNodeIP node.Addresses) s := rfl
  by_cases h1 : (applyNodeMutation et node.Name (extractNodeIP node.Addresses) s.nodeIPs).2 = false
  · rw [hA, handleNodeEventCore_eq_noChange cfg env et node.Name (extractNodeIP node.Addresses) s h1]
      at hch
    exact absurd hch (by simp)
  · have h1' : (applyNodeMutation et node.Name (extractNodeIP node.Addresses) s.nodeIPs).2
        = true := by
      revert h1
      cases (applyNodeMutation et node.Name (extractNodeIP node.Addresses) s.nodeIPs).2 <;> simp
    by_cases h2 : (applyNodeMutation et node.Name (extractNodeIP node.Addresses) s.nodeIPs).1.length
        < cfg.MinNodeCount
    · rw [hA, handleNodeEventCore_eq_skip cfg env et node.Name (extractNodeIP node.Addresses) s
        h1' h2]
      refine ⟨fun hle => ?_, fun _ => ⟨rfl, rfl⟩⟩
      dsimp only at hle
      exact absurd h2 (not_lt.mpr hle)
    · rw [hA, handleNodeEventCore_eq_render cfg env et node.Name (extractNodeIP node.Addresses) s
        h1' h2]
      refine ⟨fun _ => rfl, fun hlt => ?_⟩
      dsimp only at hlt
      rw [renderAndExecute_nodeIPs] at hlt
      dsimp only at hlt
      exact absurd hlt h2

/-- Claim C6 (witness): the spec's scenario — DELETE of the only node with
minimum 1 — changes the table, skips the render, and leaves the fingerprint
untouched. -/
theorem handleNodeEvent_safety_gate_witness :
    (handleNodeEvent cfg1 envAllOk "DELETE" nodeNoAddr st1).changed = true ∧
    (handleNodeEvent cfg1 envAllOk "DELETE" nodeNoAddr st1).renderAttempted = false ∧
    (handleNodeEvent cfg1 envAllOk "DELETE" nodeNoAddr st1).state.currentHash
      = st1.currentHash := by
  refine ⟨by decide, ?_, ?_⟩
  · exact ((handleNodeEvent_safety_gate cfg1 envAllOk "DELETE" nodeNoAddr st1
      (by decide)).2 (by decide)).1
  · exact ((handleNodeEvent_safety_gate cfg1 envAllOk "DELETE" nodeNoAddr st1
      (by decide)).2 (by decide)).2

/-- Claim C8 (counterexample): with `MinNodeCount = 0` and an empty listing
the loaded live count (0) meets the minimum, yet no render is attempted —
`initialSync` additionally requires a non-empty table (src/main.go:317). -/
theorem initialSync_min0_cex :
    cfgMin0.MinNodeCount ≤ (initialSync cfgMin0 envAllOk [] stEmpty).state.nodeIPs.length ∧
    (initialSync cfgMin0 envAllOk [] stEmpty).renderAttempted = false ∧
    (initialSync cfgMin0 envAllOk [] stEmpty).ok = true := by
  decide

/-- Claim C8 (amended): `initialSync` bulk-loads the table from the listing
and renders exactly when the loaded count meets the minimum **and** the table
is non-empty; every path — safety-gate rejection included — returns without
error. -/
theorem initialSync_spec (cfg : Config) (env : RenderEnv) (items : List K8sNode)
    (s : WatcherState) :
    (initialSync cfg env items s).state.nodeIPs = loadNodeIPs s.nodeIPs items ∧
    (initialSync cfg env items s).ok = true ∧
    ((initialSync cfg env items s).renderAttempted = true ↔
      (cfg.MinNodeCount ≤ (loadNodeIPs s.nodeIPs items).length ∧
        0 < (loadNodeIPs s.nodeIPs items).length)) := by
  refine ⟨initialSync_state_nodeIPs cfg env items s, ?_, ?_⟩
  · simp only [initialSync]
    split_ifs <;> rfl
  · simp only [initialSync]
    split_ifs with h1 h2
    · refine iff_of_false (by simp) ?_
      rintro ⟨hle, _⟩
      exact absurd hle (not_le.mpr h1)
    · exact iff_of_true rfl ⟨le_of_not_lt h1, h2⟩
    · refine iff_of_false (by simp) ?_
      rintro ⟨_, hpos⟩
      exact h2 hpos

/-- Claim C9: the AddressTable invariant — unique node identifiers, no empty
addresses — is preserved both by every ADD/UPDATE/DELETE event and by the
initial bulk load. -/
theorem tableInv_preserved (cfg : Config) (env : RenderEnv) (et : String) (node : K8sNode)
    (items : List K8sNode) (s : WatcherState) (h : tableInv s.nodeIPs) :
    tableInv (handleNodeEvent cfg env et node s).state.nodeIPs ∧
    tableInv (initialSync cfg env items s).state.nodeIPs := by
  constructor
  · rw [handleNodeEvent, handleNodeEventCore_state_nodeIPs]
    exact tableInv_applyNodeMutation _ _ _ h
  · rw [initialSync_state_nodeIPs]
    exact tableInv_loadNodeIPs items h

/-- Claim C9 (witness): the invariant carried through a concrete ADD event and
a concrete initial sync from the one-node table. -/
theorem tableInv_preserved_witness :
    tableInv (handleNodeEvent cfg1 envAllOk "ADD" nodeNoAddr st1).state.nodeIPs ∧
    tableInv (initialSync cfg1 envAllOk [] st1).state.nodeIPs :=
  tableInv_preserved cfg1 envAllOk "ADD" nodeNoAddr [] st1 ⟨by decide, by decide⟩

/-- `extractNodeIP` returns the address of the first `ExternalIP`-typed entry
in list order (`""` when there is none). -/
theorem extractNodeIP_eq_find (l : List NodeAddress) :
    extractNodeIP l
      = ((l.find? (fun a => a.addrType == "ExternalIP")).map NodeAddress.address).getD "" := by
  induction l with
  | nil => rfl
  | cons a rest ih =>
    cases h : a.addrType == "ExternalIP" with
    | true => simp [extractNodeIP, h, List.find?_cons_of_pos]
    | false => simp [extractNodeIP, h, List.find?_cons_of_neg, ih]

/-- Entries after a present `ExternalIP` entry never influence the extracted
address. -/
theorem extractNodeIP_append {l : List NodeAddress} (rest : List NodeAddress)
    (h : (l.find? (fun a => a.addrType == "ExternalIP")).isSome = true) :
    extractNodeIP (l ++ rest) = extractNodeIP l := by
  rcases Option.isSome_iff_exists.mp h with ⟨a, ha⟩
  rw [extractNodeIP_eq_find, extractNodeIP_eq_find, List.find?_append, ha]
  rfl

theorem loadNodeIPs_append : ∀ (l1 : List K8sNode) (m : List (String × String))
    (l2 : List K8sNode), loadNodeIPs m (l1 ++ l2) = loadNodeIPs (loadNodeIPs m l1) l2
  | [], _, _ => rfl
  | _ :: xs, _, l2 => loadNodeIPs_append xs _ l2

/-- Claim C10: the recorded address is the first `ExternalIP`-typed status
entry; any further `ExternalIP` entries are invisible to both the event path
and the initial listing — appending them yields identical results. -/
theorem firstExternalIP_wins (l rest : List NodeAddress) (cfg : Config) (env : RenderEnv)
    (et name : String) (s : WatcherState) (pre post : List K8sNode)
    (h : (l.find? (fun a => a.addrType == "ExternalIP")).isSome = true) :
    extractNodeIP l
        = ((l.find? (fun a => a.addrType == "ExternalIP")).map NodeAddress.address).getD "" ∧
    handleNodeEvent cfg env et { Name := name, Addresses := l ++ rest } s
      = handleNodeEvent cfg env et { Name := name, Addresses := l } s ∧
    initialSync cfg env (pre ++ { Name := name, Addresses := l ++ rest } :: post) s
      = initialSync cfg env (pre ++ { Name := name, Addresses := l } :: post) s := by
  refine ⟨extractNodeIP_eq_find l, ?_, ?_⟩
  · simp only [handleNodeEvent]
    rw [extractNodeIP_append rest h]
  · have hload : loadNodeIPs s.nodeIPs (pre ++ { Name := name, Addresses := l ++ rest } :: post)
        = loadNodeIPs s.nodeIPs (pre ++ { Name := name, Addresses := l } :: post) := by
      rw [loadNodeIPs_append, loadNodeIPs_append]
      show loadNodeIPs (loadNodeIPs _ _)
          ({ Name := name, Addresses := l ++ rest } :: post)
        = loadNodeIPs (loadNodeIPs _ _) ({ Name := name, Addresses := l } :: post)
      unfold loadNodeIPs
      simp only [List.foldl_cons]
      rw [extractNodeIP_append rest h]
    simp only [initialSync]
    rw [hload]

/-- Claim C10 (witness): with a hostname entry followed by two `ExternalIP`
entries, the first external entry is extracted and the trailing one changes
nothing. -/
theorem firstExternalIP_wins_witness :
    (addrList1.find? (fun a => a.addrType == "ExternalIP")).isSome = true ∧
    extractNodeIP addrList1 = "1.2.3.4" ∧
    handleNodeEvent cfg1 envAllOk "ADD" { Name := "node1", Addresses := addrList1 ++ addrList2 } st1
      = handleNodeEvent cfg1 envAllOk "ADD" { Name := "node1", Addresses := addrList1 } st1 :=
  ⟨by decide, by decide,
    (firstExternalIP_wins addrList1 addrList2 cfg1 envAllOk "ADD" "node1" st1 [] []
      (by decide)).2.1⟩
